import Mathlib

/-!
Verification of the data-model layer of a PDF credit-card-statement
extraction application (`app/models.py`).  The source file is purely
declarative: four persistent entities (UploadedFile, ExtractionJob,
Transaction, ExportRecord), enumerations (JobStatus, FileFormat) and
transfer schemas (request/response shapes).  Monetary amounts are
fixed-point decimals with 2 decimal places and at most 10 digits; we
embed them as integer numbers of cents.  Dates and datetimes are
embedded as records of their components.  Operations that live outside
the schema file (create/fetch, partial update application, filter
application, serialization of responses) are modelled from the spec and
marked as such in their doc comments.
-/

/-! ### Characters and digit strings -/

/-- The decimal digit character for a digit value below ten. -/
def digitChar (d : Nat) : Char :=
  match d with
  | 0 => '0' | 1 => '1' | 2 => '2' | 3 => '3' | 4 => '4'
  | 5 => '5' | 6 => '6' | 7 => '7' | 8 => '8' | 9 => '9'
  | _ => '*'

/-- Numeric value of a decimal digit character. -/
def charVal (c : Char) : Nat := c.toNat - 48

/-- Whether a character is an ASCII decimal digit. -/
def isDigitChar (c : Char) : Bool := 48 ≤ c.toNat && c.toNat ≤ 57

/-- Little-endian decimal digits of a natural number, with explicit fuel
(the number itself suffices as fuel). -/
def toRevDigits : Nat → Nat → List Nat
  | 0, _ => []
  | fuel + 1, n => if n = 0 then [] else n % 10 :: toRevDigits fuel (n / 10)

/-- Decimal representation of a natural number as a character list,
most significant digit first, with no leading zeros (and `"0"` for zero). -/
def natReprChars (n : Nat) : List Char :=
  if n = 0 then ['0'] else ((toRevDigits n n).reverse).map digitChar

/-- Value of a big-endian list of decimal digit characters. -/
def digitsVal (l : List Char) : Nat :=
  l.foldl (fun acc c => 10 * acc + charVal c) 0

/-- Two-digit zero-padded decimal rendering (for values below 100). -/
def pad2 (n : Nat) : List Char := [digitChar (n / 10 % 10), digitChar (n % 10)]

/-- Four-digit zero-padded decimal rendering (for values below 10000). -/
def pad4 (n : Nat) : List Char :=
  [digitChar (n / 1000 % 10), digitChar (n / 100 % 10),
   digitChar (n / 10 % 10), digitChar (n % 10)]

/-- Parse a nonempty all-digit character list as a natural number. -/
def parseDigits (l : List Char) : Option Nat :=
  if l ≠ [] ∧ l.all isDigitChar then some (digitsVal l) else none

/-! ### Dates and datetimes

Python `datetime.date` / `datetime.datetime` values are embedded as
records of their components (years are at most 9999 in Python). -/

structure DateD where
  year : Nat
  month : Nat
  day : Nat
deriving DecidableEq

/-- The component ranges guaranteed by Python `datetime.date`. -/
def validDate (d : DateD) : Prop :=
  d.year ≤ 9999 ∧ 1 ≤ d.month ∧ d.month ≤ 12 ∧ 1 ≤ d.day ∧ d.day ≤ 31

structure DatetimeD where
  date : DateD
  hour : Nat
  minute : Nat
  second : Nat
deriving DecidableEq

/-- The component ranges guaranteed by Python `datetime.datetime`. -/
def validDatetime (t : DatetimeD) : Prop :=
  validDate t.date ∧ t.hour ≤ 23 ∧ t.minute ≤ 59 ∧ t.second ≤ 59

/-- Modelled from the spec: output schemas render dates as ISO-8601
`YYYY-MM-DD` strings (the rendering code is outside the schema module). -/
def renderDate (d : DateD) : String :=
  String.mk (pad4 d.year ++ '-' :: (pad2 d.month ++ '-' :: pad2 d.day))

/-- Modelled from the spec: output schemas render datetimes as full
ISO-8601 strings with time, `YYYY-MM-DDTHH:MM:SS`. -/
def renderDatetime (t : DatetimeD) : String :=
  String.mk (pad4 t.date.year ++ '-' :: (pad2 t.date.month ++ '-' ::
    (pad2 t.date.day ++ 'T' :: (pad2 t.hour ++ ':' ::
      (pad2 t.minute ++ ':' :: pad2 t.second)))))

/-- Parser for ISO-8601 `YYYY-MM-DD` date strings. -/
def parseDate (s : String) : Option DateD :=
  match s.data with
  | [y1, y2, y3, y4, s1, m1, m2, s2, d1, d2] =>
    if s1 = '-' ∧ s2 = '-' ∧ ([y1, y2, y3, y4, m1, m2, d1, d2].all isDigitChar) then
      some ⟨digitsVal [y1, y2, y3, y4], digitsVal [m1, m2], digitsVal [d1, d2]⟩
    else none
  | _ => none

/-- Parser for ISO-8601 `YYYY-MM-DDTHH:MM:SS` datetime strings. -/
def parseDatetime (s : String) : Option DatetimeD :=
  match s.data with
  | [y1, y2, y3, y4, s1, m1, m2, s2, d1, d2, s3, h1, h2, s4, n1, n2, s5, c1, c2] =>
    if s1 = '-' ∧ s2 = '-' ∧ s3 = 'T' ∧ s4 = ':' ∧ s5 = ':' ∧
        ([y1, y2, y3, y4, m1, m2, d1, d2, h1, h2, n1, n2, c1, c2].all isDigitChar) then
      some ⟨⟨digitsVal [y1, y2, y3, y4], digitsVal [m1, m2], digitsVal [d1, d2]⟩,
        digitsVal [h1, h2], digitsVal [n1, n2], digitsVal [c1, c2]⟩
    else none
  | _ => none

/-- Shape check: the string is exactly `YYYY-MM-DD` with decimal digits. -/
def isISODateString (s : String) : Bool :=
  match s.data with
  | [y1, y2, y3, y4, s1, m1, m2, s2, d1, d2] =>
    ([y1, y2, y3, y4, m1, m2, d1, d2].all isDigitChar) && s1 = '-' && s2 = '-'
  | _ => false

/-- Shape check: the string is exactly `YYYY-MM-DDTHH:MM:SS` with decimal
digits. -/
def isISODatetimeString (s : String) : Bool :=
  match s.data with
  | [y1, y2, y3, y4, s1, m1, m2, s2, d1, d2, s3, h1, h2, s4, n1, n2, s5, c1, c2] =>
    ([y1, y2, y3, y4, m1, m2, d1, d2, h1, h2, n1, n2, c1, c2].all isDigitChar) &&
      s1 = '-' && s2 = '-' && s3 = 'T' && s4 = ':' && s5 = ':'
  | _ => false

/-! ### Monetary amounts

`Decimal` fields declared `max_digits=10, decimal_places=2` are embedded
as integer numbers of cents; validity bounds the absolute value by
`10 ^ 10` cents (10 significant digits, two of them after the point). -/

/-- The `max_digits=10, decimal_places=2` constraint on `Decimal` amounts,
on the cents embedding. -/
def validAmount (v : Int) : Prop := v.natAbs < 10 ^ 10

/-- Modelled from the spec: response schemas carry amounts as the string
representation of the `Decimal` (sign, integer part without leading
zeros, a point, and exactly two fractional digits); the rendering code is
outside the schema module. -/
def serializeAmount (v : Int) : String :=
  let n := v.natAbs
  let body := natReprChars (n / 100) ++ '.' :: pad2 (n % 100)
  String.mk (if v < 0 then '-' :: body else body)

/-- Split a character list at the first `'.'`. -/
def splitAtDot : List Char → Option (List Char × List Char)
  | [] => none
  | c :: cs =>
    if c = '.' then some ([], cs)
    else (splitAtDot cs).map (fun p => (c :: p.1, p.2))

/-- Parse an unsigned fixed-point decimal with exactly two fractional
digits, as a number of cents. -/
def parseAmountChars (l : List Char) : Option Nat :=
  match splitAtDot l with
  | none => none
  | some (ip, fp) =>
    match parseDigits ip with
    | none => none
    | some i =>
      match fp with
      | [c1, c2] =>
        if isDigitChar c1 ∧ isDigitChar c2 then
          some (i * 100 + (10 * charVal c1 + charVal c2))
        else none
      | _ => none

/-- Parse a signed fixed-point decimal string with exactly two fractional
digits, as an integer number of cents. -/
def parseAmount (s : String) : Option Int :=
  match s.data with
  | [] => none
  | c :: rest =>
    if c = '-' then (parseAmountChars rest).map (fun n => -(n : Int))
    else (parseAmountChars (c :: rest)).map (fun n => (n : Int))

/-! ### Enumerations (`JobStatus`, `FileFormat`) -/

/-- Status enumeration for PDF processing jobs. -/
inductive JobStatus where
  | pending
  | processing
  | completed
  | failed
deriving DecidableEq

/-- Lowercase string value of a `JobStatus`, as declared in the source
enumeration. -/
def JobStatus.toStr : JobStatus → String
  | .pending => "pending"
  | .processing => "processing"
  | .completed => "completed"
  | .failed => "failed"

/-- Deserialization of a `JobStatus` from its string value; any string
that is not one of the four declared values is rejected. -/
def JobStatus.ofStr? (s : String) : Option JobStatus :=
  if s = "pending" then some .pending
  else if s = "processing" then some .processing
  else if s = "completed" then some .completed
  else if s = "failed" then some .failed
  else none

/-- Supported file formats for export. -/
inductive FileFormat where
  | excel
  | csv
deriving DecidableEq

/-- Lowercase string value of a `FileFormat`, as declared in the source
enumeration. -/
def FileFormat.toStr : FileFormat → String
  | .excel => "excel"
  | .csv => "csv"

/-- Deserialization of a `FileFormat` from its string value; any string
that is not one of the two declared values is rejected. -/
def FileFormat.ofStr? (s : String) : Option FileFormat :=
  if s = "excel" then some .excel
  else if s = "csv" then some .csv
  else none

/-! ### JSON values (for the free-form metadata mapping) -/

/-- A JSON-compatible value, for `Dict[str, Any]` metadata fields. -/
inductive Json where
  | null
  | bool (b : Bool)
  | num (n : Int)
  | str (s : String)
  | arr (xs : List Json)
  | obj (fields : List (String × Json))

/-! ### Persistent entities -/

/-- Model for tracking uploaded PDF files (`uploaded_files`). -/
structure UploadedFile where
  id : Option Int := none
  filename : String
  file_path : String
  file_size : Int
  content_type : String
  upload_date : DatetimeD
deriving DecidableEq

/-- Model for tracking PDF extraction jobs (`extraction_jobs`). -/
structure ExtractionJob where
  id : Option Int := none
  uploaded_file_id : Int
  status : JobStatus := .pending
  started_at : Option DatetimeD := none
  completed_at : Option DatetimeD := none
  error_message : Option String := none
  total_transactions_found : Int := 0
  extraction_metadata : List (String × Json) := []

/-- Model for individual credit card transactions extracted from PDF
(`transactions`); the amount is in cents. -/
structure Transaction where
  id : Option Int := none
  extraction_job_id : Int
  transaction_date : DateD
  billing_date : Option DateD := none
  description : String
  amount : Int
  raw_text : Option String := none
  page_number : Option Int := none
  line_number : Option Int := none
  created_at : DatetimeD
deriving DecidableEq

/-- Model for tracking file exports (`export_records`). -/
structure ExportRecord where
  id : Option Int := none
  extraction_job_id : Int
  format : FileFormat
  filename : String
  file_path : String
  created_at : DatetimeD
  download_count : Int := 0
deriving DecidableEq

/-! ### Transfer schemas (request/response shapes) -/

/-- Response schema for file upload.  Its fields are exactly those of the
source schema: `file_id`, `filename`, `file_size`, `upload_date` (an ISO
datetime string) and `message`. -/
structure FileUploadResponse where
  file_id : Int
  filename : String
  file_size : Int
  upload_date : String
  message : String
deriving DecidableEq

/-- Schema for creating a new transaction (amount in cents). -/
structure TransactionCreate where
  extraction_job_id : Int
  transaction_date : DateD
  billing_date : Option DateD := none
  description : String
  amount : Int
  raw_text : Option String := none
  page_number : Option Int := none
  line_number : Option Int := none
deriving DecidableEq

/-- Schema for updating transaction data; every field is optional and
`none` means the field was not supplied. -/
structure TransactionUpdate where
  transaction_date : Option DateD := none
  billing_date : Option DateD := none
  description : Option String := none
  amount : Option Int := none
deriving DecidableEq

/-- Response schema for transaction data: dates and the creation
timestamp are ISO strings, the amount is the string representation of the
`Decimal`. -/
structure TransactionResponse where
  id : Int
  transaction_date : String
  billing_date : Option String := none
  description : String
  amount : String
  page_number : Option Int := none
  line_number : Option Int := none
  created_at : String
deriving DecidableEq

/-- Schema for creating an extraction job: only the uploaded file id is
supplied. -/
structure ExtractionJobCreate where
  uploaded_file_id : Int
deriving DecidableEq

/-- Response schema for an extraction job; timestamps are optional ISO
datetime strings. -/
structure ExtractionJobResponse where
  id : Int
  uploaded_file_id : Int
  status : JobStatus
  started_at : Option String := none
  completed_at : Option String := none
  error_message : Option String := none
  total_transactions_found : Int
  filename : String
deriving DecidableEq

/-- Schema for export requests, with the source's declared defaults. -/
structure ExportRequest where
  extraction_job_id : Int
  format : FileFormat := FileFormat.excel
  include_metadata : Bool := false
deriving DecidableEq

/-- Schema for filtering transactions; all predicates besides the
identifying job key are optional (amount bounds in cents). -/
structure TransactionFilter where
  extraction_job_id : Int
  start_date : Option DateD := none
  end_date : Option DateD := none
  min_amount : Option Int := none
  max_amount : Option Int := none
  description_contains : Option String := none
  page_number : Option Int := none
deriving DecidableEq

/-- A structured validation error: the offending field and the reason. -/
structure ValidationError where
  field : String
  reason : String
deriving DecidableEq

/-! ### Modelled operations

The schema module declares no behavior; the operations below are the
spec's contracts for the external collaborators that use the schemas. -/

/-- Modelled from the spec: creating an `ExtractionJob` from its create
schema supplies only the uploaded file id; every other column takes the
source's declared default (the create/persist code is outside the schema
module). -/
def createExtractionJob (c : ExtractionJobCreate) (newId : Int) : ExtractionJob :=
  { id := some newId, uploaded_file_id := c.uploaded_file_id }

/-- Modelled from the spec: the upload handler persists a new
`UploadedFile` row with a fresh id and the upload timestamp (the handler
is outside the schema module). -/
def createUploadedFile (store : List UploadedFile) (filename file_path : String)
    (file_size : Int) (content_type : String) (now : DatetimeD) :
    List UploadedFile × Int :=
  let row : UploadedFile :=
    { id := some (store.length : Int), filename := filename,
      file_path := file_path, file_size := file_size,
      content_type := content_type, upload_date := now }
  (store ++ [row], (store.length : Int))

/-- Modelled from the spec: fetching an `UploadedFile` row by primary
key. -/
def fetchUploadedFile (store : List UploadedFile) (fid : Int) : Option UploadedFile :=
  store.find? (fun u => decide (u.id = some fid))

/-- A store is well formed when each row's id is its position. -/
def WellFormedStore (store : List UploadedFile) : Prop :=
  ∀ i : Fin store.length, (store.get i).id = some ((i : Nat) : Int)

/-- Modelled from the spec: rendering an `UploadedFile` entity as the
upload response schema; the schema has no content-type field, so the
response carries only id, filename, size, timestamp and a message. -/
def renderFileUploadResponse (u : UploadedFile) : FileUploadResponse :=
  { file_id := u.id.getD 0, filename := u.filename, file_size := u.file_size,
    upload_date := renderDatetime u.upload_date,
    message := "File uploaded successfully" }

/-- The create-then-fetch-then-render pipeline for an upload. -/
def uploadRoundTrip (store : List UploadedFile) (filename file_path : String)
    (file_size : Int) (content_type : String) (now : DatetimeD) :
    Option FileUploadResponse :=
  let created := createUploadedFile store filename file_path file_size content_type now
  (fetchUploadedFile created.1 created.2).map renderFileUploadResponse

/-- The length constraints declared on `UploadedFile` string columns. -/
def validUploadInput (filename file_path content_type : String) : Prop :=
  filename.length ≤ 255 ∧ file_path.length ≤ 500 ∧ content_type.length ≤ 100

/-- Modelled from the spec: applying a partial `TransactionUpdate`; every
field left unspecified (`none`) keeps its prior value (the update
endpoint is outside the schema module). -/
def applyTransactionUpdate (t : Transaction) (u : TransactionUpdate) : Transaction :=
  { t with
    transaction_date := u.transaction_date.getD t.transaction_date,
    billing_date := match u.billing_date with
      | some d => some d
      | none => t.billing_date,
    description := u.description.getD t.description,
    amount := u.amount.getD t.amount }

/-- The update that specifies only the amount field. -/
def amountOnlyUpdate (a : Int) : TransactionUpdate := { amount := some a }

/-- Calendar order on embedded dates (lexicographic on components). -/
def dateLE (a b : DateD) : Bool :=
  decide (a.year < b.year ∨ (a.year = b.year ∧ (a.month < b.month ∨
    (a.month = b.month ∧ a.day ≤ b.day))))

/-- Modelled from the spec: a `TransactionFilter` is the AND-combination
of its present predicates — inclusive date range, inclusive amount range,
substring match on description, exact page number — and an absent
predicate imposes no constraint (the query code is outside the schema
module). -/
def matchesFilter (f : TransactionFilter) (t : Transaction) : Bool :=
  (match f.start_date with
    | none => true
    | some d => dateLE d t.transaction_date) &&
  (match f.end_date with
    | none => true
    | some d => dateLE t.transaction_date d) &&
  (match f.min_amount with
    | none => true
    | some a => decide (a ≤ t.amount)) &&
  (match f.max_amount with
    | none => true
    | some a => decide (t.amount ≤ a)) &&
  (match f.description_contains with
    | none => true
    | some s => decide (List.IsInfix s.data t.description.data)) &&
  (match f.page_number with
    | none => true
    | some p => decide (t.page_number = some p))

/-- The filter that sets only the amount range (bounds in cents). -/
def amountRangeFilter (jid lo hi : Int) : TransactionFilter :=
  { extraction_job_id := jid, min_amount := some lo, max_amount := some hi }

/-- Validation of a `TransactionCreate` payload against the declared
column constraints; a violation is surfaced as a structured error and an
accepted payload is returned unchanged (never truncated or coerced). -/
def validateTransactionCreate (c : TransactionCreate) :
    Except ValidationError TransactionCreate :=
  if 500 < c.description.length then
    .error ⟨"description", "String should have at most 500 characters"⟩
  else if 10 ^ 10 ≤ c.amount.natAbs then
    .error ⟨"amount", "Decimal input should have no more than 10 digits in total"⟩
  else if c.raw_text.any (fun r => decide (1000 < r.length)) then
    .error ⟨"raw_text", "String should have at most 1000 characters"⟩
  else
    .ok c

/-- An event of the normal-operation job lifecycle described by the
spec. -/
inductive JobEvent where
  | start (t : DatetimeD)
  | complete (t : DatetimeD) (found : Nat)
  | fail (msg : String)

/-- Modelled from the spec: the normal-operation lifecycle of an
`ExtractionJob` — pending to processing (sets started_at), processing to
completed (sets completed_at and the number of transactions found) or to
failed (sets error_message); no transition leaves a terminal state. -/
def jobStep (j : ExtractionJob) (e : JobEvent) : Option ExtractionJob :=
  match e with
  | .start t =>
    if j.status = JobStatus.pending then
      some { j with status := JobStatus.processing, started_at := some t }
    else none
  | .complete t n =>
    if j.status = JobStatus.processing then
      some { j with status := JobStatus.completed, completed_at := some t, total_transactions_found := (n : Int) }
    else none
  | .fail m =>
    if j.status = JobStatus.processing then
      some { j with status := JobStatus.failed, error_message := some m }
    else none

/-- The jobs reachable under normal operation: created from the create
schema, then stepped through the lifecycle. -/
inductive JobReachable : ExtractionJob → Prop where
  | created (c : ExtractionJobCreate) (newId : Int) :
      JobReachable (createExtractionJob c newId)
  | stepped (j j' : ExtractionJob) (e : JobEvent) :
      JobReachable j → jobStep j e = some j' → JobReachable j'

/-- Modelled from the spec: the export generator persists a new
`ExportRecord` with the declared default download counter of zero. -/
def createExportRecord (jid : Int) (fmt : FileFormat)
    (filename file_path : String) (now : DatetimeD) (newId : Int) : ExportRecord :=
  { id := some newId, extraction_job_id := jid, format := fmt,
    filename := filename, file_path := file_path, created_at := now }

/-- Modelled from the spec: each download increments the download
counter. -/
def recordDownload (r : ExportRecord) : ExportRecord :=
  { r with download_count := r.download_count + 1 }

/-- The export records reachable under normal operation: created with
the default counter, then downloaded any number of times. -/
inductive ExportReachable : ExportRecord → Prop where
  | created (jid : Int) (fmt : FileFormat) (filename file_path : String)
      (now : DatetimeD) (newId : Int) :
      ExportReachable (createExportRecord jid fmt filename file_path now newId)
  | downloaded (r : ExportRecord) :
      ExportReachable r → ExportReachable (recordDownload r)

/-- Modelled from the spec: rendering a `Transaction` entity as its
response schema — dates as ISO strings, the amount as the `Decimal`
string. -/
def renderTransactionResponse (t : Transaction) : TransactionResponse :=
  { id := t.id.getD 0,
    transaction_date := renderDate t.transaction_date,
    billing_date := t.billing_date.map renderDate,
    description := t.description,
    amount := serializeAmount t.amount,
    page_number := t.page_number,
    line_number := t.line_number,
    created_at := renderDatetime t.created_at }

/-- Modelled from the spec: rendering an `ExtractionJob` entity (plus the
related file's name) as its response schema — timestamps as optional ISO
datetime strings. -/
def renderExtractionJobResponse (j : ExtractionJob) (filename : String) :
    ExtractionJobResponse :=
  { id := j.id.getD 0, uploaded_file_id := j.uploaded_file_id,
    status := j.status,
    started_at := j.started_at.map renderDatetime,
    completed_at := j.completed_at.map renderDatetime,
    error_message := j.error_message,
    total_transactions_found := j.total_transactions_found,
    filename := filename }

/-! ### Proof-support definitions and concrete fixtures -/

/-- Value of a little-endian list of decimal digits. -/
def valLE : List Nat → Nat
  | [] => 0
  | d :: ds => d + 10 * valLE ds

/-- A concrete datetime fixture. -/
def dt0 : DatetimeD := ⟨⟨2024, 5, 1⟩, 12, 30, 15⟩

/-- A concrete transaction fixture (amount 12.50 in cents). -/
def t0 : Transaction :=
  { id := some 7, extraction_job_id := 1, transaction_date := ⟨2024, 1, 2⟩,
    billing_date := some ⟨2024, 1, 5⟩, description := "COFFEE SHOP",
    amount := 1250, created_at := dt0 }

/-- A concrete extraction-job fixture that has started processing. -/
def j1 : ExtractionJob :=
  { id := some 1, uploaded_file_id := 1, status := JobStatus.processing,
    started_at := some dt0 }

/-- The upload response produced for the C1 fixtures. -/
def r0 : FileUploadResponse :=
  { file_id := 0, filename := "a.pdf", file_size := 100,
    upload_date := renderDatetime dt0, message := "File uploaded successfully" }

/-- A create payload with a 500-character description. -/
def c500 : TransactionCreate :=
  { extraction_job_id := 1, transaction_date := ⟨2024, 1, 2⟩,
    description := String.mk (List.replicate 500 'a'), amount := 1250 }

/-- A create payload with a 501-character description. -/
def c501 : TransactionCreate :=
  { extraction_job_id := 1, transaction_date := ⟨2024, 1, 2⟩,
    description := String.mk (List.replicate 501 'a'), amount := 1250 }

/-! ### Digit-string lemmas -/

theorem charVal_digitChar (d : Nat) (h : d < 10) : charVal (digitChar d) = d := by
  interval_cases d <;> decide

theorem isDigitChar_digitChar (d : Nat) (h : d < 10) : isDigitChar (digitChar d) = true := by
  interval_cases d <;> decide

theorem digitChar_ne_dash (d : Nat) (h : d < 10) : digitChar d ≠ '-' := by
  interval_cases d <;> decide

theorem digitChar_ne_dot (d : Nat) (h : d < 10) : digitChar d ≠ '.' := by
  interval_cases d <;> decide

theorem valLE_toRevDigits (fuel : Nat) : ∀ n, n ≤ fuel → valLE (toRevDigits fuel n) = n := by
  induction fuel with
  | zero => intro n hn; interval_cases n; simp [toRevDigits, valLE]
  | succ f ih =>
    intro n hn
    by_cases h0 : n = 0
    · simp [toRevDigits, h0, valLE]
    · have hlt : n / 10 < n := Nat.div_lt_self (Nat.pos_of_ne_zero h0) (by omega)
      simp only [toRevDigits, h0, if_false, valLE]
      rw [ih (n / 10) (by omega)]
      omega

theorem toRevDigits_lt (fuel : Nat) : ∀ n, ∀ d ∈ toRevDigits fuel n, d < 10 := by
  induction fuel with
  | zero => intro n d hd; simp [toRevDigits] at hd
  | succ f ih =>
    intro n d hd
    by_cases h0 : n = 0
    · simp [toRevDigits, h0] at hd
    · simp only [toRevDigits, h0, if_false, List.mem_cons] at hd
      rcases hd with h | h
      · omega
      · exact ih (n / 10) d h

theorem digitsVal_from (l : List Char) : ∀ acc : Nat,
    l.foldl (fun acc c => 10 * acc + charVal c) acc = acc * 10 ^ l.length + digitsVal l := by
  induction l with
  | nil => intro acc; simp [digitsVal]
  | cons c t ih =>
    intro acc
    have h0 : digitsVal (c :: t) = charVal c * 10 ^ t.length + digitsVal t := by
      simp only [digitsVal, List.foldl_cons, Nat.mul_zero, Nat.zero_add]
      rw [ih (charVal c)]
      rfl
    simp only [List.foldl_cons]
    rw [ih (10 * acc + charVal c), h0, List.length_cons, pow_succ]
    ring

theorem digitsVal_append (l1 l2 : List Char) :
    digitsVal (l1 ++ l2) = digitsVal l1 * 10 ^ l2.length + digitsVal l2 := by
  simp only [digitsVal, List.foldl_append]
  exact digitsVal_from l2 _

theorem digitsVal_reverse_map (ds : List Nat) (h : ∀ d ∈ ds, d < 10) :
    digitsVal ((ds.reverse).map digitChar) = valLE ds := by
  induction ds with
  | nil => simp [digitsVal, valLE]
  | cons d t ih =>
    simp only [List.reverse_cons, List.map_append, valLE]
    rw [digitsVal_append]
    have h1 : digitsVal ([d].map digitChar) = d := by
      simp [digitsVal, charVal_digitChar d (h d (by simp))]
    simp only [List.map_cons, List.map_nil] at h1 ⊢
    rw [h1, ih (fun x hx => h x (by simp [hx]))]
    simp [valLE]
    ring

theorem digitsVal_natReprChars (n : Nat) : digitsVal (natReprChars n) = n := by
  by_cases h0 : n = 0
  · subst h0; decide
  · simp only [natReprChars, h0, if_false]
    rw [digitsVal_reverse_map _ (toRevDigits_lt n n)]
    exact valLE_toRevDigits n n le_rfl

theorem natReprChars_ne_nil (n : Nat) : natReprChars n ≠ [] := by
  by_cases h0 : n = 0
  · simp [natReprChars, h0]
  · simp only [natReprChars, h0, if_false]
    intro hc
    have h2 : toRevDigits n n = [] := by
      have := congrArg List.length hc
      simp at this
      exact this
    have := valLE_toRevDigits n n le_rfl
    rw [h2] at this
    simp [valLE] at this
    omega

theorem natReprChars_mem (n : Nat) (c : Char) (hc : c ∈ natReprChars n) :
    isDigitChar c = true ∧ c ≠ '.' ∧ c ≠ '-' := by
  have hex : ∃ d, d < 10 ∧ c = digitChar d := by
    by_cases h0 : n = 0
    · simp [natReprChars, h0] at hc
      exact ⟨0, by omega, by simp [hc]; rfl⟩
    · simp only [natReprChars, h0, if_false, List.mem_map, List.mem_reverse] at hc
      obtain ⟨d, hd, rfl⟩ := hc
      exact ⟨d, toRevDigits_lt n n d hd, rfl⟩
  obtain ⟨d, hd, rfl⟩ := hex
  exact ⟨isDigitChar_digitChar d hd, digitChar_ne_dot d hd, digitChar_ne_dash d hd⟩

theorem natReprChars_cons (n : Nat) : ∃ c t, natReprChars n = c :: t ∧ c ≠ '-' := by
  cases hc : natReprChars n with
  | nil => exact absurd hc (natReprChars_ne_nil n)
  | cons c t =>
    refine ⟨c, t, rfl, ?_⟩
    exact (natReprChars_mem n c (by rw [hc]; simp)).2.2

theorem digitsVal_pad2 (n : Nat) (h : n < 100) : digitsVal (pad2 n) = n := by
  simp only [pad2, digitsVal, List.foldl_cons, List.foldl_nil]
  rw [charVal_digitChar _ (Nat.mod_lt _ (by omega)), charVal_digitChar _ (Nat.mod_lt _ (by omega))]
  omega

theorem digitsVal_pad4 (n : Nat) (h : n < 10000) : digitsVal (pad4 n) = n := by
  simp only [pad4, digitsVal, List.foldl_cons, List.foldl_nil]
  rw [charVal_digitChar _ (Nat.mod_lt _ (by omega)), charVal_digitChar _ (Nat.mod_lt _ (by omega)),
    charVal_digitChar _ (Nat.mod_lt _ (by omega)), charVal_digitChar _ (Nat.mod_lt _ (by omega))]
  omega

/-! ### Date, datetime and amount serialization lemmas -/

theorem isDigitChar_digitChar_mod (n : Nat) : isDigitChar (digitChar (n % 10)) = true :=
  isDigitChar_digitChar _ (Nat.mod_lt _ (by omega))

theorem isISODateString_renderDate (d : DateD) : isISODateString (renderDate d) = true := by
  simp only [renderDate, pad4, pad2, List.cons_append, List.nil_append, isISODateString]
  simp [isDigitChar_digitChar_mod]

theorem isISODatetimeString_renderDatetime (t : DatetimeD) :
    isISODatetimeString (renderDatetime t) = true := by
  simp only [renderDatetime, pad4, pad2, List.cons_append, List.nil_append, isISODatetimeString]
  simp [isDigitChar_digitChar_mod]

theorem parseDate_renderDate (d : DateD) (h : validDate d) : parseDate (renderDate d) = some d := by
  obtain ⟨hy, hm1, hm2, hd1, hd2⟩ := h
  simp only [renderDate, pad4, pad2, List.cons_append, List.nil_append, parseDate]
  rw [if_pos (by simp [isDigitChar_digitChar_mod])]
  have e1 : digitsVal [digitChar (d.year / 1000 % 10), digitChar (d.year / 100 % 10),
      digitChar (d.year / 10 % 10), digitChar (d.year % 10)] = d.year :=
    digitsVal_pad4 d.year (by omega)
  have e2 : digitsVal [digitChar (d.month / 10 % 10), digitChar (d.month % 10)] = d.month :=
    digitsVal_pad2 d.month (by omega)
  have e3 : digitsVal [digitChar (d.day / 10 % 10), digitChar (d.day % 10)] = d.day :=
    digitsVal_pad2 d.day (by omega)
  rw [e1, e2, e3]

theorem parseDatetime_renderDatetime (t : DatetimeD) (h : validDatetime t) :
    parseDatetime (renderDatetime t) = some t := by
  obtain ⟨⟨hy, hm1, hm2, hd1, hd2⟩, hh, hn, hs⟩ := h
  simp only [renderDatetime, pad4, pad2, List.cons_append, List.nil_append, parseDatetime]
  rw [if_pos (by simp [isDigitChar_digitChar_mod])]
  have e1 : digitsVal [digitChar (t.date.year / 1000 % 10), digitChar (t.date.year / 100 % 10),
      digitChar (t.date.year / 10 % 10), digitChar (t.date.year % 10)] = t.date.year :=
    digitsVal_pad4 t.date.year (by omega)
  have e2 : digitsVal [digitChar (t.date.month / 10 % 10), digitChar (t.date.month % 10)] = t.date.month :=
    digitsVal_pad2 t.date.month (by omega)
  have e3 : digitsVal [digitChar (t.date.day / 10 % 10), digitChar (t.date.day % 10)] = t.date.day :=
    digitsVal_pad2 t.date.day (by omega)
  have e4 : digitsVal [digitChar (t.hour / 10 % 10), digitChar (t.hour % 10)] = t.hour :=
    digitsVal_pad2 t.hour (by omega)
  have e5 : digitsVal [digitChar (t.minute / 10 % 10), digitChar (t.minute % 10)] = t.minute :=
    digitsVal_pad2 t.minute (by omega)
  have e6 : digitsVal [digitChar (t.second / 10 % 10), digitChar (t.second % 10)] = t.second :=
    digitsVal_pad2 t.second (by omega)
  rw [e1, e2, e3, e4, e5, e6]

theorem splitAtDot_append (ip fp : List Char) (h : '.' ∉ ip) :
    splitAtDot (ip ++ '.' :: fp) = some (ip, fp) := by
  induction ip with
  | nil => simp [splitAtDot]
  | cons c t ih =>
    simp only [List.mem_cons, not_or] at h
    have hc : c ≠ '.' := fun hcc => h.1 hcc.symm
    simp [splitAtDot, hc, ih h.2]

theorem natReprChars_all_digits (n : Nat) : (natReprChars n).all isDigitChar = true := by
  rw [List.all_eq_true]
  intro c hc
  exact (natReprChars_mem n c hc).1

theorem parseDigits_natReprChars (n : Nat) : parseDigits (natReprChars n) = some n := by
  rw [parseDigits, if_pos ⟨natReprChars_ne_nil n, natReprChars_all_digits n⟩, digitsVal_natReprChars]

theorem parseAmountChars_serialize (n : Nat) :
    parseAmountChars (natReprChars (n / 100) ++ '.' :: pad2 (n % 100)) = some n := by
  have hdot : '.' ∉ natReprChars (n / 100) := fun hin => (natReprChars_mem _ _ hin).2.1 rfl
  simp only [parseAmountChars, splitAtDot_append _ _ hdot, parseDigits_natReprChars, pad2]
  rw [if_pos ⟨isDigitChar_digitChar_mod _, isDigitChar_digitChar_mod _⟩]
  rw [charVal_digitChar _ (Nat.mod_lt _ (by omega)), charVal_digitChar _ (Nat.mod_lt _ (by omega))]
  congr 1
  omega

theorem parseAmount_serializeAmount (v : Int) : parseAmount (serializeAmount v) = some v := by
  by_cases hv : v < 0
  · simp only [serializeAmount, hv, if_true]
    simp only [parseAmount]
    simp only [if_true]
    rw [parseAmountChars_serialize]
    simp [abs_of_neg hv]
  · obtain ⟨c, t, hct, hdash⟩ := natReprChars_cons (v.natAbs / 100)
    simp only [serializeAmount, hv, if_false]
    rw [hct]
    simp only [List.cons_append, parseAmount]
    rw [if_neg hdash, ← List.cons_append, ← hct, parseAmountChars_serialize]
    simp [abs_of_nonneg (not_lt.mp hv)]

/-! ### Store and lifecycle lemmas -/

theorem find?_append_of_none {α : Type} (p : α → Bool) (l1 l2 : List α)
    (h : l1.find? p = none) : (l1 ++ l2).find? p = l2.find? p := by
  induction l1 with
  | nil => rfl
  | cons a t ih =>
    cases hp : p a with
    | true =>
      rw [List.find?_cons_of_pos _ hp] at h
      exact absurd h (by simp)
    | false =>
      rw [List.find?_cons_of_neg _ (by simp [hp])] at h
      rw [List.cons_append, List.find?_cons_of_neg _ (by simp [hp])]
      exact ih h

theorem fetch_store_miss (store : List UploadedFile) (hw : WellFormedStore store) :
    store.find? (fun u => decide (u.id = some (store.length : Int))) = none := by
  rw [List.find?_eq_none]
  intro u hu
  obtain ⟨i, hi⟩ := List.mem_iff_get.mp hu
  have hid := hw i
  rw [hi] at hid
  have hlt := i.isLt
  simp only [hid, decide_eq_true_eq, Option.some.injEq]
  omega

theorem fetchUploadedFile_after_create (store : List UploadedFile) (hw : WellFormedStore store)
    (fn fp : String) (sz : Int) (ct : String) (now : DatetimeD) :
    fetchUploadedFile (createUploadedFile store fn fp sz ct now).1
        (createUploadedFile store fn fp sz ct now).2 =
      some { id := some (store.length : Int), filename := fn, file_path := fp,
             file_size := sz, content_type := ct, upload_date := now } := by
  simp only [createUploadedFile, fetchUploadedFile]
  rw [find?_append_of_none _ _ _ (fetch_store_miss store hw)]
  rw [List.find?_cons_of_pos _ (by simp)]

theorem jobReachable_invariant (j : ExtractionJob) (h : JobReachable j) :
    0 ≤ j.total_transactions_found ∧
      (j.status = JobStatus.pending ∨ j.status = JobStatus.processing →
        j.total_transactions_found = 0) := by
  induction h with
  | created c newId => simp [createExtractionJob]
  | stepped j j' e hr hs ih =>
    cases e with
    | start t =>
      simp only [jobStep] at hs
      by_cases hp : j.status = JobStatus.pending
      · rw [if_pos hp] at hs
        injection hs with hs
        subst hs
        exact ⟨ih.1, fun _ => ih.2 (Or.inl hp)⟩
      · rw [if_neg hp] at hs
        exact Option.noConfusion hs
    | complete t n =>
      simp only [jobStep] at hs
      by_cases hp : j.status = JobStatus.processing
      · rw [if_pos hp] at hs
        injection hs with hs
        subst hs
        refine ⟨Int.natCast_nonneg n, fun hc => ?_⟩
        rcases hc with h | h <;> exact JobStatus.noConfusion h
      · rw [if_neg hp] at hs
        exact Option.noConfusion hs
    | fail m =>
      simp only [jobStep] at hs
      by_cases hp : j.status = JobStatus.processing
      · rw [if_pos hp] at hs
        injection hs with hs
        subst hs
        exact ⟨ih.1, fun _ => ih.2 (Or.inr hp)⟩
      · rw [if_neg hp] at hs
        exact Option.noConfusion hs

theorem jobStep_counter_mono (j j' : ExtractionJob) (e : JobEvent)
    (hr : JobReachable j) (hs : jobStep j e = some j') :
    j.total_transactions_found ≤ j'.total_transactions_found := by
  cases e with
  | start t =>
    simp only [jobStep] at hs
    by_cases hp : j.status = JobStatus.pending
    · rw [if_pos hp] at hs
      injection hs with hs
      subst hs
      exact le_rfl
    · rw [if_neg hp] at hs
      exact Option.noConfusion hs
  | complete t n =>
    simp only [jobStep] at hs
    by_cases hp : j.status = JobStatus.processing
    · rw [if_pos hp] at hs
      injection hs with hs
      subst hs
      have h0 := (jobReachable_invariant j hr).2 (Or.inr hp)
      simp only [h0]
      exact Int.natCast_nonneg n
    · rw [if_neg hp] at hs
      exact Option.noConfusion hs
  | fail m =>
    simp only [jobStep] at hs
    by_cases hp : j.status = JobStatus.processing
    · rw [if_pos hp] at hs
      injection hs with hs
      subst hs
      exact le_rfl
    · rw [if_neg hp] at hs
      exact Option.noConfusion hs

theorem exportReachable_nonneg (r : ExportRecord) (h : ExportReachable r) :
    0 ≤ r.download_count := by
  induction h with
  | created jid fmt fn fp now newId => simp [createExportRecord]
  | downloaded r hr ih =>
    simp only [recordDownload]
    omega

/-! ### Claim theorems -/

/-- C3: an ExtractionJob created with only an uploaded_file_id supplied
has status pending, zero transactions found, and no error message,
start timestamp or completion timestamp. -/
theorem extractionJob_create_defaults (c : ExtractionJobCreate) (newId : Int) :
    (createExtractionJob c newId).status = JobStatus.pending ∧
    (createExtractionJob c newId).total_transactions_found = 0 ∧
    (createExtractionJob c newId).error_message = none ∧
    (createExtractionJob c newId).started_at = none ∧
    (createExtractionJob c newId).completed_at = none :=
  ⟨rfl, rfl, rfl, rfl, rfl⟩

/-- C10: an ExportRequest constructed with only an extraction_job_id
supplied defaults to the excel format and include_metadata false. -/
theorem exportRequest_defaults (jid : Int) :
    ({ extraction_job_id := jid } : ExportRequest).format = FileFormat.excel ∧
    ({ extraction_job_id := jid } : ExportRequest).include_metadata = false :=
  ⟨rfl, rfl⟩

/-- C2: for every Transaction amount satisfying the declared
`max_digits=10, decimal_places=2` constraint, serializing the amount to
its decimal string representation and parsing that string back yields a
value equal to the original amount. -/
theorem transaction_amount_string_roundtrip (v : Int) (h : validAmount v) :
    parseAmount (serializeAmount v) = some v :=
  parseAmount_serializeAmount v

/-- Witness for C2: the amount 12345678.90 (1234567890 cents) serializes
to the exact string `12345678.90` and round-trips exactly. -/
theorem transaction_amount_string_roundtrip_witness :
    validAmount 1234567890 ∧ serializeAmount 1234567890 = "12345678.90" ∧
    parseAmount (serializeAmount 1234567890) = some 1234567890 :=
  ⟨by unfold validAmount; decide, by decide,
   transaction_amount_string_roundtrip 1234567890 (by unfold validAmount; decide)⟩

/-- C8: job statuses are exactly the four enumeration values and export
formats exactly the two; both serialize as their lowercase string values,
round-trip through deserialization, and any other string is rejected at
the deserialization boundary. -/
theorem enum_values_closed :
    (∀ s : JobStatus, s = JobStatus.pending ∨ s = JobStatus.processing ∨
      s = JobStatus.completed ∨ s = JobStatus.failed) ∧
    (∀ f : FileFormat, f = FileFormat.excel ∨ f = FileFormat.csv) ∧
    (JobStatus.toStr JobStatus.pending = "pending" ∧
      JobStatus.toStr JobStatus.processing = "processing" ∧
      JobStatus.toStr JobStatus.completed = "completed" ∧
      JobStatus.toStr JobStatus.failed = "failed" ∧
      FileFormat.toStr FileFormat.excel = "excel" ∧
      FileFormat.toStr FileFormat.csv = "csv") ∧
    (∀ s : JobStatus, JobStatus.ofStr? (JobStatus.toStr s) = some s) ∧
    (∀ f : FileFormat, FileFormat.ofStr? (FileFormat.toStr f) = some f) ∧
    (∀ str : String, (∀ s : JobStatus, str ≠ JobStatus.toStr s) →
      JobStatus.ofStr? str = none) ∧
    (∀ str : String, (∀ f : FileFormat, str ≠ FileFormat.toStr f) →
      FileFormat.ofStr? str = none) := by
  refine ⟨?_, ?_, ?_, ?_, ?_, ?_, ?_⟩
  · intro s; cases s <;> simp
  · intro f; cases f <;> simp
  · exact ⟨rfl, rfl, rfl, rfl, rfl, rfl⟩
  · intro s; cases s <;> rfl
  · intro f; cases f <;> rfl
  · intro str h
    have h1 := h JobStatus.pending
    have h2 := h JobStatus.processing
    have h3 := h JobStatus.completed
    have h4 := h JobStatus.failed
    simp only [JobStatus.toStr] at h1 h2 h3 h4
    simp [JobStatus.ofStr?, h1, h2, h3, h4]
  · intro str h
    have h1 := h FileFormat.excel
    have h2 := h FileFormat.csv
    simp only [FileFormat.toStr] at h1 h2
    simp [FileFormat.ofStr?, h1, h2]

/-- Witness for C8: a string outside the enumerations is rejected by both
deserializers. -/
theorem enum_values_closed_witness :
    JobStatus.ofStr? "bogus" = none ∧ FileFormat.ofStr? "bogus" = none :=
  ⟨enum_values_closed.2.2.2.2.2.1 "bogus" (by intro s; cases s <;> decide),
   enum_values_closed.2.2.2.2.2.2 "bogus" (by intro f; cases f <;> decide)⟩

/-- C4: applying a partial TransactionUpdate leaves every unspecified
field unchanged; in particular an update specifying only the amount
changes the amount alone and keeps the transaction date, billing date and
description. -/
theorem transactionUpdate_partial_frame (t : Transaction) (u : TransactionUpdate) :
    (u.transaction_date = none →
      (applyTransactionUpdate t u).transaction_date = t.transaction_date) ∧
    (u.billing_date = none →
      (applyTransactionUpdate t u).billing_date = t.billing_date) ∧
    (u.description = none →
      (applyTransactionUpdate t u).description = t.description) ∧
    (u.amount = none → (applyTransactionUpdate t u).amount = t.amount) ∧
    (∀ a : Int, applyTransactionUpdate t (amountOnlyUpdate a) = { t with amount := a }) :=
  ⟨fun h => by simp [applyTransactionUpdate, h],
   fun h => by simp [applyTransactionUpdate, h],
   fun h => by simp [applyTransactionUpdate, h],
   fun h => by simp [applyTransactionUpdate, h],
   fun a => by simp [applyTransactionUpdate, amountOnlyUpdate]⟩

/-- Witness for C4: updating the fixture transaction with only an amount
replaces the amount alone. -/
theorem transactionUpdate_partial_frame_witness :
    applyTransactionUpdate t0 (amountOnlyUpdate 9999) = { t0 with amount := 9999 } :=
  (transactionUpdate_partial_frame t0 (amountOnlyUpdate 9999)).2.2.2.2 9999

/-- C5: a TransactionFilter with only the amount range present selects
exactly the transactions whose amount lies in the closed interval
(10.00 and 50.00 are 1000 and 5000 cents), regardless of other fields;
in general a filter is the conjunction of its present predicates and an
absent predicate imposes no constraint. -/
theorem transactionFilter_semantics (jid lo hi : Int) (ts : List Transaction)
    (t : Transaction) (f : TransactionFilter) :
    (matchesFilter (amountRangeFilter jid lo hi) t = true ↔
      lo ≤ t.amount ∧ t.amount ≤ hi) ∧
    (ts.filter (matchesFilter (amountRangeFilter jid 1000 5000)) =
      ts.filter (fun x => decide (1000 ≤ x.amount ∧ x.amount ≤ 5000))) ∧
    (matchesFilter f t = true ↔
      ((∀ d, f.start_date = some d → dateLE d t.transaction_date = true) ∧
       (∀ d, f.end_date = some d → dateLE t.transaction_date d = true) ∧
       (∀ a, f.min_amount = some a → a ≤ t.amount) ∧
       (∀ a, f.max_amount = some a → t.amount ≤ a) ∧
       (∀ s, f.description_contains = some s → List.IsInfix s.data t.description.data) ∧
       (∀ p, f.page_number = some p → t.page_number = some p))) := by
  refine ⟨?_, ?_, ?_⟩
  · simp [matchesFilter, amountRangeFilter]
  · apply List.filter_congr
    intro x hx
    simp [matchesFilter, amountRangeFilter]
  · rcases f with ⟨fj, sd, ed, mina, maxa, dc, pn⟩
    cases sd <;> cases ed <;> cases mina <;> cases maxa <;> cases dc <;> cases pn <;>
      simp [matchesFilter, and_assoc]

/-- Witness for C5: the fixture transaction (amount 12.50) is selected by
the 10.00–50.00 amount filter. -/
theorem transactionFilter_semantics_witness :
    matchesFilter (amountRangeFilter 1 1000 5000) t0 = true :=
  (transactionFilter_semantics 1 1000 5000 [] t0 (amountRangeFilter 1 1000 5000)).1.mpr
    (by unfold t0; exact ⟨by decide, by decide⟩)

/-- C6: creating a Transaction with a 501-character description fails
validation with a structured error naming the field (the value is never
truncated), while a 500-character description passes validation with the
payload returned unchanged. -/
theorem transactionCreate_description_bound (c : TransactionCreate) :
    (c.description.length = 501 →
      validateTransactionCreate c =
        Except.error ⟨"description", "String should have at most 500 characters"⟩) ∧
    (c.description.length = 500 → validAmount c.amount →
      (∀ r, c.raw_text = some r → r.length ≤ 1000) →
      validateTransactionCreate c = Except.ok c) := by
  constructor
  · intro h
    rw [validateTransactionCreate, if_pos (by omega)]
  · intro h hv hr
    rw [validateTransactionCreate, if_neg (by omega), if_neg (not_le.mpr hv), if_neg ?_]
    cases hraw : c.raw_text with
    | none => simp [hraw]
    | some r =>
      have := hr r hraw
      simp [hraw, this]

/-- Witness for C6: a 501-character description is rejected with a
structured error; a 500-character one is accepted unchanged. -/
theorem transactionCreate_description_bound_witness :
    validateTransactionCreate c501 =
      Except.error ⟨"description", "String should have at most 500 characters"⟩ ∧
    validateTransactionCreate c500 = Except.ok c500 :=
  ⟨(transactionCreate_description_bound c501).1 (List.length_replicate 501 'a'),
   (transactionCreate_description_bound c500).2 (List.length_replicate 500 'a')
     (by unfold validAmount; decide)
     (fun r hr => Option.noConfusion (show (none : Option String) = some r from hr))⟩

/-- C1 counterexample: the upload response schema carries no content-type
field, so two uploads differing only in content type produce identical
responses; no reading of the response can recover the input's content
type, hence the round trip does not preserve it. -/
theorem uploadResponse_content_type_not_preserved :
    ¬ ∃ g : FileUploadResponse → String,
      ∀ (store : List UploadedFile) (fn fp : String) (sz : Int) (ct : String)
        (now : DatetimeD) (r : FileUploadResponse),
        validUploadInput fn fp ct →
        uploadRoundTrip store fn fp sz ct now = some r → g r = ct := by
  rintro ⟨g, hg⟩
  have e1 : uploadRoundTrip [] "a.pdf" "/p" 100 "application/pdf" dt0 = some r0 := by decide
  have e2 : uploadRoundTrip [] "a.pdf" "/p" 100 "text/plain" dt0 = some r0 := by decide
  have hv1 : validUploadInput "a.pdf" "/p" "application/pdf" := by
    unfold validUploadInput; decide
  have hv2 : validUploadInput "a.pdf" "/p" "text/plain" := by
    unfold validUploadInput; decide
  have h1 := hg [] "a.pdf" "/p" 100 "application/pdf" dt0 r0 hv1 e1
  have h2 := hg [] "a.pdf" "/p" 100 "text/plain" dt0 r0 hv2 e2
  rw [h1] at h2
  exact absurd h2 (by decide)

/-- C1 (amended): for every valid upload input over a well-formed store,
create-then-fetch-then-render preserves the filename and the file size
exactly, and create-then-fetch preserves the content type on the stored
entity; the upload response schema itself has no content-type field. -/
theorem uploadRoundTrip_preserves_filename_and_size (store : List UploadedFile)
    (fn fp : String) (sz : Int) (ct : String) (now : DatetimeD)
    (hw : WellFormedStore store) (hv : validUploadInput fn fp ct) :
    ∃ r, uploadRoundTrip store fn fp sz ct now = some r ∧
      r.filename = fn ∧ r.file_size = sz ∧
      (fetchUploadedFile (createUploadedFile store fn fp sz ct now).1
          (createUploadedFile store fn fp sz ct now).2).map UploadedFile.content_type =
        some ct := by
  have hf := fetchUploadedFile_after_create store hw fn fp sz ct now
  refine ⟨renderFileUploadResponse
    { id := some (store.length : Int), filename := fn, file_path := fp,
      file_size := sz, content_type := ct, upload_date := now }, ?_, rfl, rfl, ?_⟩
  · simp only [uploadRoundTrip]
    rw [hf]
    rfl
  · rw [hf]
    rfl

/-- Witness for the amended C1 on an empty store and a concrete PDF
upload. -/
theorem uploadRoundTrip_preserves_filename_and_size_witness :
    ∃ r, uploadRoundTrip [] "a.pdf" "/p" 100 "application/pdf" dt0 = some r ∧
      r.filename = "a.pdf" ∧ r.file_size = 100 ∧
      (fetchUploadedFile (createUploadedFile [] "a.pdf" "/p" 100 "application/pdf" dt0).1
          (createUploadedFile [] "a.pdf" "/p" 100 "application/pdf" dt0).2).map
        UploadedFile.content_type = some "application/pdf" :=
  uploadRoundTrip_preserves_filename_and_size [] "a.pdf" "/p" 100 "application/pdf" dt0
    (fun i => i.elim0) (by unfold validUploadInput; decide)

/-- C7: in every state reachable under normal operation the
transactions-found counter of a job and the download counter of an export
record are non-negative, and every normal-operation step leaves each of
them non-decreasing. -/
theorem counters_nonneg_monotone :
    (∀ j, JobReachable j → 0 ≤ j.total_transactions_found) ∧
    (∀ j j' e, JobReachable j → jobStep j e = some j' →
      j.total_transactions_found ≤ j'.total_transactions_found) ∧
    (∀ r, ExportReachable r → 0 ≤ r.download_count) ∧
    (∀ r, ExportReachable r → r.download_count ≤ (recordDownload r).download_count) :=
  ⟨fun j h => (jobReachable_invariant j h).1,
   fun j j' e hr hs => jobStep_counter_mono j j' e hr hs,
   fun r h => exportReachable_nonneg r h,
   fun r _ => by simp only [recordDownload]; omega⟩

/-- Witness for C7 on a freshly created job and export record. -/
theorem counters_nonneg_monotone_witness :
    0 ≤ (createExtractionJob ⟨1⟩ 0).total_transactions_found ∧
    0 ≤ (createExportRecord 1 FileFormat.excel "t.xlsx" "/e" dt0 0).download_count :=
  ⟨counters_nonneg_monotone.1 _ (JobReachable.created ⟨1⟩ 0),
   counters_nonneg_monotone.2.2.1 _
     (ExportReachable.created 1 FileFormat.excel "t.xlsx" "/e" dt0 0)⟩

/-- C9: the transaction and extraction-job response schemas render dates
as ISO-8601 `YYYY-MM-DD` strings, datetimes as full ISO-8601 strings with
time, and amounts as full-precision decimal strings, and each rendering
parses back to the original value (lossless serialization). -/
theorem responses_serialize_iso (t : Transaction) (j : ExtractionJob) (fn : String)
    (h1 : validDate t.transaction_date) (h2 : validDatetime t.created_at)
    (h4 : validAmount t.amount) :
    isISODateString (renderTransactionResponse t).transaction_date = true ∧
    parseDate (renderTransactionResponse t).transaction_date = some t.transaction_date ∧
    (∀ b, t.billing_date = some b → validDate b →
      (renderTransactionResponse t).billing_date = some (renderDate b) ∧
      isISODateString (renderDate b) = true ∧ parseDate (renderDate b) = some b) ∧
    isISODatetimeString (renderTransactionResponse t).created_at = true ∧
    parseDatetime (renderTransactionResponse t).created_at = some t.created_at ∧
    parseAmount (renderTransactionResponse t).amount = some t.amount ∧
    (∀ s, j.started_at = some s → validDatetime s →
      (renderExtractionJobResponse j fn).started_at = some (renderDatetime s) ∧
      isISODatetimeString (renderDatetime s) = true ∧
      parseDatetime (renderDatetime s) = some s) := by
  refine ⟨isISODateString_renderDate _, parseDate_renderDate _ h1, ?_,
    isISODatetimeString_renderDatetime _, parseDatetime_renderDatetime _ h2,
    parseAmount_serializeAmount _, ?_⟩
  · intro b hb hvb
    exact ⟨by simp [renderTransactionResponse, hb], isISODateString_renderDate b,
      parseDate_renderDate b hvb⟩
  · intro s hs hvs
    exact ⟨by simp [renderExtractionJobResponse, hs], isISODatetimeString_renderDatetime s,
      parseDatetime_renderDatetime s hvs⟩

/-- Witness for C9 on the fixture transaction and a started job. -/
theorem responses_serialize_iso_witness :
    parseDate (renderTransactionResponse t0).transaction_date = some t0.transaction_date ∧
    parseAmount (renderTransactionResponse t0).amount = some t0.amount ∧
    parseDatetime (renderTransactionResponse t0).created_at = some t0.created_at :=
  ⟨(responses_serialize_iso t0 j1 "a.pdf" (by unfold t0 validDate; decide)
      (by unfold t0 dt0 validDatetime validDate; decide)
      (by unfold t0 validAmount; decide)).2.1,
   (responses_serialize_iso t0 j1 "a.pdf" (by unfold t0 validDate; decide)
      (by unfold t0 dt0 validDatetime validDate; decide)
      (by unfold t0 validAmount; decide)).2.2.2.2.2.1,
   (responses_serialize_iso t0 j1 "a.pdf" (by unfold t0 validDate; decide)
      (by unfold t0 dt0 validDatetime validDate; decide)
      (by unfold t0 validAmount; decide)).2.2.2.2.1⟩
